import Mathlib

/-!
Verification of the post-conversation screening-decision subsystem
(`src/agents/screening_decision/`): a shallow embedding of the context
assembler (`context_manager.py`), the tool orchestrator
(`tool_orchestrator.py`) and the analysis coordinator (`agent.py`),
together with the SQLAlchemy data model of `db/models/chat.py`.

Conventions of the embedding:
* identifiers (UUID columns) are `Nat`;
* timestamps (`datetime`) are `Nat` seconds; `datetime.utcnow()` is the
  store clock `now`;
* a JSON metadata bag is an association list `List (String × JVal)`;
* Python values that may be `None` are `Option _`; `dict.get(k)` is the
  corresponding `Option` field, `dict.get(k, d)` is `Option.getD`;
* a Python function that may raise is `Except String _`, the string being
  the exception message (exact message text is not load-bearing);
* wall-clock durations (`time.time()` deltas) are not modelled: the
  `processing_time` / `execution_time` entries of result dictionaries are
  elided, nothing in the verified properties mentions them.
-/

namespace Screening

/-- Identifier type standing for Python / database UUIDs. -/
abbrev UUID := Nat

/-- A JSON value as stored in a metadata bag (the shapes this subsystem
actually writes or reads: booleans, numbers, strings). -/
inductive JVal where
  | jbool (b : Bool)
  | jnat (n : Nat)
  | jstr (s : String)
  deriving Repr, DecidableEq

/-- A JSON object: the deserialized value of a SQLAlchemy `JSON` column. -/
abbrev Bag := List (String × JVal)

/-- `bag.get(k)` on a JSON dict. -/
def Bag.getVal (bag : Bag) (key : String) : Option JVal :=
  (bag.find? (fun kv => kv.1 = key)).map Prod.snd

/-- `db/models/chat.py :: Conversation` — the columns this subsystem touches.
The model declares NO `metadata` column; its JSON bag column is `context`
(`context = Column(JSON, nullable=True)`). -/
structure Conversation where
  id : UUID
  user_id : UUID
  title : String
  context : Option Bag
  created_at : Nat
  updated_at : Nat
  deriving Repr, DecidableEq

/-- `db/models/chat.py :: Message`. -/
structure Message where
  id : UUID
  conversation_id : UUID
  role : String
  content : String
  created_at : Nat
  deriving Repr, DecidableEq

/-- `db/models/clinician_note.py :: ClinicianNote` (model file not under
`src/`; fields are the ones `context_manager.py` reads: `conversation_id`,
`content`, `note_type`, `created_at`). -/
structure ClinicianNote where
  id : UUID
  conversation_id : UUID
  content : String
  note_type : String
  created_at : Nat
  deriving Repr, DecidableEq

/-- `db/models/job_posting_match.py :: JobPostingMatch` (model file not under
`src/`; fields are the ones `context_manager.py` reads). -/
structure JobPostingMatch where
  id : UUID
  clinician_id : UUID
  job_posting_id : UUID
  deriving Repr, DecidableEq

/-- `db/models/job_posting.py :: JobPosting` (model file not under `src/`;
fields are the ones `context_manager.py` reads). -/
structure JobPosting where
  id : UUID
  client_id : UUID
  team_id : Option UUID
  deriving Repr, DecidableEq

/-- `db/models/client.py :: Client` (model file not under `src/`). -/
structure Client where
  id : UUID
  name : String
  deriving Repr, DecidableEq

/-- `db/models/organization.py :: Team` (model file not under `src/`). -/
structure Team where
  id : UUID
  name : String
  deriving Repr, DecidableEq

/-- Modelled from the spec: the `Decision` record (`db/models/decision.py`
is not among the sources; only its callers are). Per the spec data model a
Decision carries title, body, decision type, priority, quoted excerpts,
reasoning text, the organizational scope triple (team_id, client_id,
match_id) plus clinician_id, a creation timestamp and a status.  Constructor
arguments the caller does not supply stay `none` (a SQLAlchemy column not
passed to the constructor defaults to NULL). -/
structure Decision where
  id : UUID
  title : Option String
  body : Option String
  decision_type : Option String
  priority : Option String
  quoted_excerpts : List String
  ai_reasoning : Option String
  team_id : Option UUID
  client_id : Option UUID
  job_posting_match_id : Option UUID
  clinician_id : Option UUID
  created_by : Option UUID
  status : String
  created_at : Nat
  deriving Repr, DecidableEq

/-- The persistent state behind the `AsyncSession`: the tables this
subsystem queries, the id generator and the clock. -/
structure Store where
  conversations : List Conversation
  messages : List Message
  notes : List ClinicianNote
  job_posting_matches : List JobPostingMatch
  job_postings : List JobPosting
  clients : List Client
  teams : List Team
  decisions : List Decision
  nextId : UUID
  now : Nat
  deriving Repr, DecidableEq

/-- A database session: the store plus a fault switch.  When `failing` is
`some msg`, every `db_session.execute` / `flush` raises a store error with
message `msg`; when it is `none` the store behaves normally.  This models
the "internal store error" scenarios of the spec. -/
structure DB where
  store : Store
  failing : Option String
  deriving Repr, DecidableEq

/-- `select(Conversation).where(Conversation.id == conversation_id)`
followed by `scalar_one_or_none()`. -/
def findConversation (s : Store) (cid : UUID) : Option Conversation :=
  s.conversations.find? (fun c => c.id = cid)

/-- Notes of a conversation (`select(ClinicianNote).where(...)`, no explicit
ordering in the source). -/
def conversationNotes (s : Store) (cid : UUID) : List ClinicianNote :=
  s.notes.filter (fun n => n.conversation_id = cid)

end Screening

namespace Screening

/-! ### `tool_orchestrator.py :: _calculate_title_similarity` -/

/-- Python `str.split()` with no argument over a character list: split on
runs of whitespace, discarding empty tokens.  `acc` holds the characters of
the token currently being read, in reverse. -/
def splitWhitespace : List Char → List Char → List String
  | [], acc => if acc.isEmpty then [] else [String.mk acc.reverse]
  | c :: rest, acc =>
    if c.isWhitespace then
      if acc.isEmpty then splitWhitespace rest []
      else String.mk acc.reverse :: splitWhitespace rest []
    else splitWhitespace rest (c :: acc)

/-- `title.lower().split()` then `set(...)`: lower-case character by
character (Python `str.lower`), split on whitespace (Python `str.split()`
with no argument drops empty tokens), collect into a set of words. -/
def titleWords (title : String) : Finset String :=
  (splitWhitespace (title.toList.map Char.toLower) []).toFinset

/-- `tool_orchestrator.py` lines 370–384, `_calculate_title_similarity`:
word-set similarity of two titles.  Both word sets empty gives `1.0`,
exactly one empty gives `0.0`, otherwise
`len(intersection) / len(union) if union else 0.0`. -/
def calculateTitleSimilarity (title1 title2 : String) : ℚ :=
  let words1 := titleWords title1
  let words2 := titleWords title2
  if words1 = ∅ ∧ words2 = ∅ then 1
  else if words1 = ∅ ∨ words2 = ∅ then 0
  else
    let inter := words1 ∩ words2
    let uni := words1 ∪ words2
    if uni = ∅ then 0 else (inter.card : ℚ) / (uni.card : ℚ)

/-- The spec sentence, taken literally: token-set Jaccard similarity —
intersection-of-words over union-of-words, case-insensitive,
whitespace-tokenized; both titles empty gives 1.0; exactly one empty
gives 0.0. -/
def jaccardSimilaritySpec (title1 title2 : String) : ℚ :=
  let words1 := titleWords title1
  let words2 := titleWords title2
  if words1 = ∅ ∧ words2 = ∅ then 1
  else if words1 = ∅ ∨ words2 = ∅ then 0
  else ((words1 ∩ words2).card : ℚ) / ((words1 ∪ words2).card : ℚ)

/-! ### Tool orchestrator (`tool_orchestrator.py`) -/

/-- The values of `schemas.py :: DecisionType`.  The orchestrator imports
this enumeration but no handler ever consults it. -/
def decisionTypeValues : List String :=
  ["clinician_question", "information_request", "special_accommodation",
   "scheduling_conflict"]

/-- The values of `schemas.py :: DecisionPriority`.  Imported by the
orchestrator, never consulted. -/
def decisionPriorityValues : List String := ["low", "medium", "high"]

/-- `schemas.py :: ConversationAnalysisInput` (after successful pydantic
validation). -/
structure ConversationAnalysisInput where
  conversation_id : UUID
  match_id : UUID
  force_reanalysis : Bool
  deriving Repr, DecidableEq

/-- The structured-argument dictionary of one tool call as produced by the
reasoning engine.  Each field models one `tool_input.get(key)` access: a key
the engine did not supply reads as `none`. -/
structure ToolInput where
  title : Option String := none
  body : Option String := none
  decision_type : Option String := none
  priority : Option String := none
  quoted_excerpts : Option (List String) := none
  ai_reasoning : Option String := none
  team_id : Option UUID := none
  client_id : Option UUID := none
  job_posting_match_id : Option UUID := none
  clinician_id : Option UUID := none
  related_message_ids : Option (List String) := none
  decision_title : Option String := none
  time_window_hours : Option Nat := none
  status : Option String := none
  analysis_completed : Option Bool := none
  decisions_created : Option Nat := none
  decision_id : Option UUID := none
  notification_type : Option String := none
  deriving Repr, DecidableEq

/-- One `tool_use` block of an engine response:
`{"name": block.name, "input": block.input, "id": block.id}`. -/
structure ToolBlock where
  name : String
  input : ToolInput := {}
  id : Option String := none
  deriving Repr, DecidableEq

/-- One entry of the `duplicate_decisions` list returned by
`_check_duplicate_decision`. -/
structure DupInfo where
  id : UUID
  title : Option String
  created_at : Nat
  similarity_score : ℚ
  deriving Repr, DecidableEq

/-- Return dictionary of `_check_duplicate_decision`.  The success path
carries `time_window_hours` and no `error` key; the exception path carries
`error` and no `time_window_hours` key — `none` models an absent key. -/
structure DupOutput where
  is_duplicate : Bool
  duplicate_count : Nat
  duplicate_decisions : List DupInfo
  time_window_hours : Option Nat := none
  error : Option String := none
  deriving Repr, DecidableEq

/-- Return dictionary of `_update_conversation_status` (never actually
produced, see `updateConversationStatus`). -/
structure UpdateOutput where
  conversation_id : UUID
  status : Option String
  analysis_completed : Bool
  decisions_created : Nat
  updated_at : Nat
  deriving Repr, DecidableEq

/-- Return dictionary of `_notify_recruiters`. -/
structure NotifyOutput where
  notification_sent : Bool
  notification_type : String
  decision_id : Option UUID
  team_id : Option UUID
  client_id : Option UUID
  priority : Option String
  sent_at : Nat
  recipients : List UUID
  deriving Repr, DecidableEq

/-- The `result` value of a successful tool invocation.  There is no
variant for `_create_intervention_decision`: its success dictionary
(lines 210–219) is unreachable, because the dispatch raises `TypeError`
before the handler body can run (see `executeTool`). -/
inductive ToolOutput where
  | dup (o : DupOutput)
  | update (o : UpdateOutput)
  | notify (o : NotifyOutput)
  deriving Repr, DecidableEq

/-- Python `str.lower` over a whole string. -/
def lowerStr (s : String) : String := String.mk (s.toList.map Char.toLower)

/-- Does `needle` occur as a contiguous run inside the second list? -/
def containsSub (needle : List Char) : List Char → Bool
  | [] => needle.isEmpty
  | c :: rest => needle.isPrefixOf (c :: rest) || containsSub needle rest

/-- SQL `x ILIKE '%pat%'`: case-insensitive substring containment. -/
def containsSubstr (haystack pattern : String) : Bool :=
  containsSub (lowerStr pattern).toList (lowerStr haystack).toList

/-- Insert-into-sorted-position helper for `sortBy`. -/
def insertSortedBy (le : α → α → Bool) (x : α) : List α → List α
  | [] => [x]
  | y :: ys => if le x y then x :: y :: ys else y :: insertSortedBy le x ys

/-- Insertion sort modelling a SQL `ORDER BY`. -/
def sortBy (le : α → α → Bool) : List α → List α
  | [] => []
  | x :: xs => insertSortedBy le x (sortBy le xs)

/-- `tool_orchestrator.py` lines 225–285, `_check_duplicate_decision`.  The
whole body sits in a `try` whose `except` returns a no-duplicates answer
with an extra `error` key, so this handler never raises: a missing
`decision_title` (the `.lower()` call on `None` raises `AttributeError`
while the statement is being built) and a failing store query both land in
the `except` branch. -/
def checkDuplicateDecision (db : DB) (conversation_id : UUID)
    (decision_title decision_type : Option String)
    (job_posting_match_id : Option UUID)
    (time_window_hours : Nat) : DupOutput :=
  let _ := conversation_id
  match decision_title with
  | none =>
    { is_duplicate := false
      duplicate_count := 0
      duplicate_decisions := []
      error := some "AttributeError: NoneType object has no attribute lower" }
  | some dtitle =>
    match db.failing with
    | some msg =>
      { is_duplicate := false
        duplicate_count := 0
        duplicate_decisions := []
        error := some msg }
    | none =>
      let cutoff := db.store.now - time_window_hours * 3600
      let hits :=
        (sortBy (fun a b => b.created_at ≤ a.created_at)
          (db.store.decisions.filter (fun d =>
            d.job_posting_match_id == job_posting_match_id &&
            d.decision_type == decision_type &&
            cutoff ≤ d.created_at &&
            (match d.title with
             | some t => containsSubstr t (lowerStr dtitle)
             | none => false)))).take 5
      let duplicate_info := hits.map (fun d =>
        ({ id := d.id
           title := d.title
           created_at := d.created_at
           -- a NULL title never passes the ILIKE filter, so `d.title` is
           -- always present here; `0` fills the impossible branch
           similarity_score :=
             match d.title with
             | some t => calculateTitleSimilarity dtitle t
             | none => 0 } : DupInfo))
      { is_duplicate := !hits.isEmpty
        duplicate_count := hits.length
        duplicate_decisions := duplicate_info
        time_window_hours := some time_window_hours }

/-- `tool_orchestrator.py` lines 287–333, `_update_conversation_status`.
After the conversation lookup the handler evaluates
`getattr(conversation, 'metadata', {})`: the `Conversation` model of
`db/models/chat.py` declares no `metadata` column, so the name resolves to
the class-level SQLAlchemy `MetaData` registry object, and the following
`.update({...})` call raises `AttributeError` (`MetaData` has no `update`
method), which the handler logs and re-raises.  The conversation row — its
`context` bag in particular — is never modified, and no success dictionary
is ever produced. -/
def updateConversationStatus (db : DB) (conversation_id : UUID)
    (status : Option String) (analysis_completed : Bool)
    (decisions_created : Nat) : Except String (UpdateOutput × DB) :=
  let _ := status
  let _ := analysis_completed
  let _ := decisions_created
  match db.failing with
  | some msg => Except.error msg
  | none =>
    match findConversation db.store conversation_id with
    | none =>
      Except.error ("Conversation not found with ID: " ++ toString conversation_id)
    | some _ =>
      Except.error "AttributeError: MetaData object has no attribute update"

/-- `tool_orchestrator.py` lines 335–368, `_notify_recruiters`: placeholder;
logs, touches nothing, acknowledges with an empty recipient list. -/
def notifyRecruiters (db : DB) (conversation_id : UUID)
    (decision_id team_id client_id : Option UUID) (priority : Option String)
    (notification_type : String) : NotifyOutput :=
  let _ := conversation_id
  { notification_sent := true
    notification_type := notification_type
    decision_id := decision_id
    team_id := team_id
    client_id := client_id
    priority := priority
    sent_at := db.store.now
    recipients := [] }

/-- The keys of `self.tool_functions` (`tool_orchestrator.py` lines 21–26). -/
def toolCatalog : List String :=
  ["create_intervention_decision", "check_duplicate_decision",
   "update_conversation_status", "notify_recruiters"]

/-- The per-invocation result dictionary of `execute_tool`.  `none` in an
`Option` field models an absent key: the unknown-tool early return carries
only `success` and `error`. -/
structure ToolResult where
  success : Bool
  error : Option String := none
  result : Option ToolOutput := none
  tool_name : Option String := none
  tool_id : Option String := none
  deriving Repr, DecidableEq

/-- `tool_orchestrator.py` lines 30–96, `execute_tool`: dispatch over the
closed handler table, with `_prepare_tool_arguments` (lines 98–167) inlined
at each call — every per-tool argument is the corresponding
`tool_input.get(...)`, with the defaults of the source (`[]` for the two
list arguments, `24`, `True`, `0`, `"new_decision"`).  A handler exception
is caught and turned into a failure dictionary; an unknown tool name
returns the two-key failure dictionary of lines 56–59 before any handler
runs.

For `create_intervention_decision` the prepared argument dict merges
`base_args` — which carries `conversation_id` (lines 117–120, 124) — but
`_create_intervention_decision` (lines 170–184) declares no
`conversation_id` parameter and no `**kwargs`, so
`tool_func(**final_tool_args)` at line 72 raises `TypeError` at argument
binding, inside the `try`: every create invocation fails with the caught
TypeError, the handler body (lines 185–223) never runs, and no `Decision`
is ever constructed or persisted through this dispatch. -/
def executeTool (db : DB) (block : ToolBlock)
    (input_data : ConversationAnalysisInput) : ToolResult × DB :=
  let tool_name := block.name
  let tool_input := block.input
  let tool_id := block.id
  if toolCatalog.contains tool_name then
    if tool_name = "create_intervention_decision" then
      ({ success := false
         error := some "TypeError: _create_intervention_decision got an unexpected keyword argument conversation_id"
         tool_name := some tool_name, tool_id := tool_id }, db)
    else if tool_name = "check_duplicate_decision" then
      let out := checkDuplicateDecision db input_data.conversation_id
        tool_input.decision_title tool_input.decision_type
        tool_input.job_posting_match_id (tool_input.time_window_hours.getD 24)
      ({ success := true, result := some (ToolOutput.dup out)
         tool_name := some tool_name, tool_id := tool_id }, db)
    else if tool_name = "update_conversation_status" then
      match updateConversationStatus db input_data.conversation_id
          tool_input.status (tool_input.analysis_completed.getD true)
          (tool_input.decisions_created.getD 0) with
      | Except.ok (out, db') =>
        ({ success := true, result := some (ToolOutput.update out)
           tool_name := some tool_name, tool_id := tool_id }, db')
      | Except.error e =>
        ({ success := false, error := some e
           tool_name := some tool_name, tool_id := tool_id }, db)
    else
      let out := notifyRecruiters db input_data.conversation_id
        tool_input.decision_id tool_input.team_id tool_input.client_id
        tool_input.priority (tool_input.notification_type.getD "new_decision")
      ({ success := true, result := some (ToolOutput.notify out)
         tool_name := some tool_name, tool_id := tool_id }, db)
  else
    ({ success := false
       error := some ("Tool function " ++ tool_name ++ " not found") }, db)

/-- Does this result count towards `decisions_created`?
(`agent.py` lines 231–234: `result.get('success') and
result.get('tool_name') == 'create_intervention_decision'`.) -/
def countsAsDecision (r : ToolResult) : Bool :=
  r.success && r.tool_name == some "create_intervention_decision"

/-- The tool-processing loop of `agent.py :: _conduct_analysis`
(lines 217–234): execute each `tool_use` block in order, collect each
result, and count the successful create-decision invocations.  Returns
(results, decisions_created, final session state). -/
def processToolBlocks (input_data : ConversationAnalysisInput) :
    DB → List ToolBlock → List ToolResult × Nat × DB
  | db, [] => ([], 0, db)
  | db, block :: rest =>
    let step := executeTool db block input_data
    let acc := processToolBlocks input_data step.2 rest
    (step.1 :: acc.1,
     (if countsAsDecision step.1 then 1 else 0) + acc.2.1,
     acc.2.2)

/-- Aggregate returned by `_conduct_analysis` on success (the `decisions`
entry is always the empty list in the source and is elided). -/
structure AnalysisOutcome where
  decisions_created : Nat
  tool_results : List ToolResult
  deriving Repr, DecidableEq

/-- `agent.py` lines 192–244, `_conduct_analysis`.  The reasoning engine is
an oracle: `none` models the Claude call raising (the `except` returns
`None`), `some blocks` models a response whose `tool_use` blocks are
`blocks`.  The assembled context only feeds the prompt text, which the
oracle abstracts over. -/
def conductAnalysis (db : DB) (input_data : ConversationAnalysisInput)
    (engine : Option (List ToolBlock)) : Option (AnalysisOutcome × DB) :=
  match engine with
  | none => none
  | some blocks =>
    let r := processToolBlocks input_data db blocks
    some ({ decisions_created := r.2.1, tool_results := r.1 }, r.2.2)

end Screening

namespace Screening

/-! ### Context assembler (`context_manager.py`) -/

/-- One formatted message of `_format_messages_for_analysis`. -/
structure FormattedMessage where
  id : UUID
  content : String
  role : String
  timestamp : Nat
  deriving Repr, DecidableEq

/-- One formatted note of `_format_notes_for_analysis`. -/
structure FormattedNote where
  id : UUID
  content : String
  timestamp : Nat
  note_type : String
  deriving Repr, DecidableEq

/-- `schemas.py :: ConversationMetadata`.  Every field is required and
non-`None` under pydantic — in particular the note timestamps and
`team_id`. -/
structure ConversationMetadata where
  conversation_id : UUID
  clinician_id : UUID
  job_posting_match_id : UUID
  team_id : UUID
  client_id : UUID
  start_timestamp : Nat
  end_timestamp : Nat
  message_count : Nat
  note_count : Nat
  notes_start_timestamp : Nat
  notes_end_timestamp : Nat
  deriving Repr, DecidableEq

/-- One entry of the `existing_decisions` list assembled by
`_get_existing_decisions` (body preview truncated to 200 characters). -/
structure ExistingDecision where
  id : UUID
  title : Option String
  decision_type : Option String
  created_at : Nat
  body : String
  deriving Repr, DecidableEq

/-- `schemas.py :: AnalysisContext`. -/
structure AnalysisContext where
  conversation_id : UUID
  clinician_id : UUID
  job_posting_match_id : UUID
  team_id : UUID
  client_id : UUID
  messages : List FormattedMessage
  notes : List FormattedNote
  conversation_metadata : ConversationMetadata
  existing_decisions : List ExistingDecision
  deriving Repr, DecidableEq

/-- The dictionary returned by `_get_conversation_data`. -/
structure ConversationData where
  conversation : Conversation
  messages : List Message
  notes : List ClinicianNote
  deriving Repr, DecidableEq

/-- The dictionary returned by `_get_match_data` (the `clinician` entry is
the loaded relationship object; only its id — available through the match
record — is ever read, so it is not repeated here). -/
structure MatchData where
  matchRecord : JobPostingMatch
  job_posting : JobPosting
  client : Option Client
  client_id : UUID
  client_name : String
  team_id : Option UUID
  team_name : String
  deriving Repr, DecidableEq

/-- `context_manager.py` lines 111–144, `_get_conversation_data`: the
conversation by id, its messages ordered by `created_at`, its notes; `None`
when the conversation is absent or a query raises (the `except` returns
`None`). -/
def getConversationData (db : DB) (cid : UUID) : Option ConversationData :=
  match db.failing with
  | some _ => none
  | none =>
    match findConversation db.store cid with
    | none => none
    | some conv =>
      some { conversation := conv
             messages := sortBy (fun a b => a.created_at ≤ b.created_at)
               (db.store.messages.filter (fun m => m.conversation_id = cid))
             notes := conversationNotes db.store cid }

/-- `context_manager.py` lines 146–203, `_get_match_data`.  The match
reference is read as `match_id = getattr(conversation.context, 'match_id',
None)`: `conversation.context` is the deserialized JSON value of the
`context` column — a Python dict (or `None`) — and neither carries a
`match_id` *attribute* (a stored reference would live under the dict *key*
`"match_id"`), so `getattr` always returns its default `None`, the method
logs "No match_id found" and returns `None`.  The remaining lookups
(lines 163–199) are therefore unreachable; they are transcribed below the
short-circuit for completeness. -/
def getMatchData (s : Store) (conversation : Conversation) : Option MatchData :=
  let match_id : Option UUID := none
  match match_id with
  | none => none
  | some mid =>
    match s.job_posting_matches.find? (fun m => m.id = mid) with
    | none => none
    | some m =>
      match s.job_postings.find? (fun jp => jp.id = m.job_posting_id) with
      | none => none
      | some jp =>
        let client := s.clients.find? (fun c => c.id = jp.client_id)
        let team_id := jp.team_id
        let team_name :=
          match team_id with
          | some tid =>
            match s.teams.find? (fun t => t.id = tid) with
            | some t => t.name
            | none => "Unknown Team"
          | none => "Unknown Team"
        some { matchRecord := m
               job_posting := jp
               client := client
               client_id := jp.client_id
               client_name :=
                 match client with
                 | some c => c.name
                 | none => "Unknown"
               team_id := team_id
               team_name := team_name }

/-- Body preview of `_get_existing_decisions`:
`decision.body[:200] + '...' if len(decision.body) > 200 else decision.body`. -/
def decisionPreview (body : String) : String :=
  if body.length > 200 then String.mk (body.toList.take 200) ++ "..." else body

/-- `context_manager.py` lines 205–235, `_get_existing_decisions`: decisions
of the match, newest first.  The whole loop sits in a `try` returning `[]`
on any exception; a record with a NULL body makes `len(decision.body)`
raise, collapsing the entire list to `[]`. -/
def getExistingDecisions (db : DB) (job_posting_match_id : UUID) :
    List ExistingDecision :=
  match db.failing with
  | some _ => []
  | none =>
    let ds := sortBy (fun a b => b.created_at ≤ a.created_at)
      (db.store.decisions.filter
        (fun d => d.job_posting_match_id == some job_posting_match_id))
    if ds.all (fun d => d.body.isSome) then
      ds.map (fun d =>
        { id := d.id
          title := d.title
          decision_type := d.decision_type
          created_at := d.created_at
          body := decisionPreview (d.body.getD "") })
    else []

/-- `context_manager.py` lines 237–267, `_prepare_conversation_metadata`,
as DECLARED: four data parameters (conversation, messages, notes,
match_data).  Start/end timestamps prefer message timestamps when messages
exist.  pydantic rejects the construction when the notes list is empty
(`notes[0].created_at if notes else None` feeds `None` into the required
`notes_start_timestamp` field) or when `match_data['team_id']` is `None`
(required `team_id` field). -/
def prepareConversationMetadata (conversation : Conversation)
    (messages : List Message) (notes : List ClinicianNote)
    (match_data : MatchData) : Except String ConversationMetadata :=
  let start_timestamp :=
    match messages.head? with
    | some m => m.created_at
    | none => conversation.created_at
  let end_timestamp :=
    match messages.getLast? with
    | some m => m.created_at
    | none => conversation.updated_at
  match match_data.team_id, notes.head?, notes.getLast? with
  | some tid, some n0, some n1 =>
    Except.ok
      { conversation_id := conversation.id
        clinician_id := match_data.matchRecord.clinician_id
        job_posting_match_id := match_data.matchRecord.id
        team_id := tid
        client_id := match_data.client_id
        start_timestamp := start_timestamp
        end_timestamp := end_timestamp
        message_count := messages.length
        note_count := notes.length
        notes_start_timestamp := n0.created_at
        notes_end_timestamp := n1.created_at }
  | _, _, _ => Except.error "pydantic ValidationError: ConversationMetadata"

/-- `context_manager.py` lines 33–109, `assemble_analysis_context`.
Step 1 loads the conversation data, step 2 resolves the match (which, per
`getMatchData`, never succeeds), step 3 loads existing decisions, step 4
invokes `self._prepare_conversation_metadata(conversation, messages,
match_data)` — three arguments for a method declared with four — which
raises `TypeError: missing 1 required positional argument`, caught by the
surrounding `except Exception`, so even with a resolvable match the
assembler would return `None`. -/
def assembleAnalysisContext (db : DB) (input : ConversationAnalysisInput) :
    Option AnalysisContext :=
  match getConversationData db input.conversation_id with
  | none => none
  | some cd =>
    match getMatchData db.store cd.conversation with
    | none => none
    | some md =>
      let _existing := getExistingDecisions db md.matchRecord.id
      none

end Screening

namespace Screening

/-! ### Analysis coordinator (`agent.py`) -/

/-- `schemas.py :: ConversationAnalysisResult` (the always-empty `decisions`
list and the wall-clock `processing_time` are elided). -/
structure ConversationAnalysisResult where
  conversation_id : UUID
  analysis_completed : Bool
  decisions_created : Nat
  error_message : Option String := none
  deriving Repr, DecidableEq

/-- Instrumentation of one run: which collaborator steps were reached.
`checked_flag` — the idempotency check ran; `assembly_attempted` — control
reached `assemble_analysis_context`; `engine_invoked` — control reached the
engine call inside `_conduct_analysis`. -/
structure RunTrace where
  checked_flag : Bool
  assembly_attempted : Bool
  engine_invoked : Bool
  deriving Repr, DecidableEq

/-- `agent.py` lines 168–190, `_check_already_analyzed`: look the
conversation up; read `getattr(conversation, 'context', {}) or {}` (the
`context` JSON column) and return the truthiness of
`context.get('post_analysis_completed', False)`.  Any exception (including
a failing store read) is caught and yields `False`. -/
def checkAlreadyAnalyzed (db : DB) (conversation_id : UUID) : Bool :=
  match db.failing with
  | some _ => false
  | none =>
    match findConversation db.store conversation_id with
    | none => false
    | some conv =>
      match (conv.context.getD []).getVal "post_analysis_completed" with
      | some (JVal.jbool b) => b
      | some (JVal.jnat n) => n != 0
      | some (JVal.jstr s) => s != ""
      | none => false

/-- The conversation exists and its `context` bag stores the boolean
completion flag `post_analysis_completed = true` — "already flagged
analysis-completed" in the words of the spec. -/
def hasCompletionFlag (s : Store) (conversation_id : UUID) : Bool :=
  match findConversation s conversation_id with
  | none => false
  | some conv =>
    match (conv.context.getD []).getVal "post_analysis_completed" with
    | some (JVal.jbool true) => true
    | _ => false

/-- The body of `analyze_conversation` after `ConversationAnalysisInput`
validated (`agent.py` lines 96–152): idempotency check (skipped when
forcing), context assembly, analysis, result aggregation.  Every branch
returns a result — each inner step traps its own exceptions — so this part
of the run never raises. -/
def analyzeValidInput (db : DB) (input : ConversationAnalysisInput)
    (engine : Option (List ToolBlock)) :
    ConversationAnalysisResult × RunTrace × DB :=
  if input.force_reanalysis = false ∧ checkAlreadyAnalyzed db input.conversation_id = true then
    ({ conversation_id := input.conversation_id
       analysis_completed := true
       decisions_created := 0
       error_message := some "Already analyzed (use force_reanalysis=True to override)" },
     { checked_flag := true, assembly_attempted := false, engine_invoked := false },
     db)
  else
    match assembleAnalysisContext db input with
    | none =>
      ({ conversation_id := input.conversation_id
         analysis_completed := false
         decisions_created := 0
         error_message := some "Failed to assemble conversation context" },
       { checked_flag := input.force_reanalysis = false
         assembly_attempted := true
         engine_invoked := false },
       db)
    | some _ctx =>
      match conductAnalysis db input engine with
      | none =>
        ({ conversation_id := input.conversation_id
           analysis_completed := false
           decisions_created := 0
           error_message := some "Analysis failed to complete" },
         { checked_flag := input.force_reanalysis = false
           assembly_attempted := true
           engine_invoked := true },
         db)
      | some (outcome, db') =>
        ({ conversation_id := input.conversation_id
           analysis_completed := true
           decisions_created := outcome.decisions_created
           error_message := none },
         { checked_flag := input.force_reanalysis = false
           assembly_attempted := true
           engine_invoked := true },
         db')

/-- A raw argument at the Python call boundary of `analyze_conversation`:
either a well-formed UUID or a malformed value that pydantic rejects when
`ConversationAnalysisInput` is constructed. -/
inductive RawArg where
  | uuid (u : UUID)
  | malformed (text : String)
  deriving Repr, DecidableEq

/-- pydantic field validation of one UUID-typed field. -/
def validateRawArg : RawArg → Option UUID
  | RawArg.uuid u => some u
  | RawArg.malformed _ => none

/-- `agent.py` lines 68–166, `analyze_conversation`, including its outer
`try`/`except` boundary.  When `ConversationAnalysisInput(...)` raises a
pydantic `ValidationError`, the `except` block (lines 154–166) evaluates
`input_data.conversation_id` — but `input_data` was never assigned, so the
handler itself raises `UnboundLocalError`, which propagates out of
`analyze_conversation`.  With a validated input every inner step traps its
own exceptions and a result is returned. -/
def analyzeConversation (db : DB) (raw_conversation_id raw_match_id : RawArg)
    (force_reanalysis : Bool) (engine : Option (List ToolBlock)) :
    Except String (ConversationAnalysisResult × RunTrace × DB) :=
  match validateRawArg raw_conversation_id, validateRawArg raw_match_id with
  | some cid, some mid =>
    Except.ok (analyzeValidInput db
      { conversation_id := cid, match_id := mid
        force_reanalysis := force_reanalysis } engine)
  | _, _ =>
    Except.error "UnboundLocalError: input_data referenced before assignment"

end Screening

namespace Screening

/-! ### Concrete fixtures used by the verification scenarios -/

/-- A conversation whose `context` bag carries the completion flag. -/
def convFlagged : Conversation :=
  { id := 3, user_id := 9, title := "t"
    context := some [("post_analysis_completed", JVal.jbool true)]
    created_at := 100, updated_at := 200 }

/-- Store holding only `convFlagged`. -/
def storeFlagged : Store :=
  { conversations := [convFlagged], messages := [], notes := []
    job_posting_matches := [], job_postings := [], clients := [], teams := []
    decisions := [], nextId := 1, now := 1000 }

/-- Healthy session over `storeFlagged`. -/
def dbFlagged : DB := { store := storeFlagged, failing := none }

/-- Non-forced analysis input for conversation 3. -/
def inputNF : ConversationAnalysisInput :=
  { conversation_id := 3, match_id := 1, force_reanalysis := false }

/-- Forced analysis input for conversation 3. -/
def inputF : ConversationAnalysisInput :=
  { conversation_id := 3, match_id := 1, force_reanalysis := true }

/-- A fully populated `create_intervention_decision` call: valid enum
values, every required field — including the scope triple — supplied. -/
def createBlockFull : ToolBlock :=
  { name := "create_intervention_decision"
    input := { title := some "Needs recruiter"
               body := some "details"
               decision_type := some "clinician_question"
               priority := some "high"
               quoted_excerpts := some ["q1"]
               ai_reasoning := some "reason"
               team_id := some 11
               client_id := some 22
               job_posting_match_id := some 33
               clinician_id := some 44 }
    id := some "toolu_1" }

/-- A `create_intervention_decision` call with a decision type and priority
outside their enumerations and a missing title. -/
def badCreateBlock : ToolBlock :=
  { name := "create_intervention_decision"
    input := { body := some "details"
               decision_type := some "totally_bogus_type"
               priority := some "urgent"
               quoted_excerpts := some []
               ai_reasoning := some "reason"
               team_id := some 11
               client_id := some 22
               job_posting_match_id := some 33
               clinician_id := some 44 }
    id := some "toolu_6" }

/-- An `update_conversation_status` call with `analysis_completed=true`. -/
def updBlock : ToolBlock :=
  { name := "update_conversation_status"
    input := { status := some "completed"
               analysis_completed := some true
               decisions_created := some 1 }
    id := some "toolu_2" }

/-- A tool call whose name is outside the catalog. -/
def unknownBlock : ToolBlock := { name := "transfer_funds", id := some "toolu_3" }

/-- A well-formed `check_duplicate_decision` call. -/
def dupBlock : ToolBlock :=
  { name := "check_duplicate_decision"
    input := { decision_title := some "Urgent"
               decision_type := some "clinician_question"
               job_posting_match_id := some 33 }
    id := some "toolu_4" }

/-- Session over `storeFlagged` whose store reads and writes raise. -/
def dbFailing : DB := { store := storeFlagged, failing := some "disk error" }

/-- A conversation with zero messages whose `context` bag stores a match
reference under the key `"match_id"` (and no completion flag). -/
def convZero : Conversation :=
  { id := 7, user_id := 9, title := "z"
    context := some [("match_id", JVal.jnat 5)]
    created_at := 100, updated_at := 200 }

/-- Store where conversation 7 has zero messages and its referenced match 5
(with job posting, client and team) is present. -/
def storeZero : Store :=
  { conversations := [convZero], messages := [], notes := []
    job_posting_matches := [{ id := 5, clinician_id := 44, job_posting_id := 6 }]
    job_postings := [{ id := 6, client_id := 22, team_id := some 11 }]
    clients := [{ id := 22, name := "Acme Health" }]
    teams := [{ id := 11, name := "Team North" }]
    decisions := [], nextId := 1, now := 1000 }

/-- Healthy session over `storeZero`. -/
def dbZero : DB := { store := storeZero, failing := none }

/-- Non-forced analysis input for conversation 7. -/
def inputZero : ConversationAnalysisInput :=
  { conversation_id := 7, match_id := 5, force_reanalysis := false }

/-! ### Helper lemmas shared by the claim theorems -/

/-- The match resolution of `_get_match_data` always fails: the `getattr`
on the JSON dict returns `None` before any lookup happens. -/
theorem getMatchData_eq_none (s : Store) (c : Conversation) :
    getMatchData s c = none := rfl

/-- Context assembly always returns `None`: step 2 (match resolution)
fails on every input. -/
theorem assembleAnalysisContext_eq_none (db : DB)
    (input : ConversationAnalysisInput) :
    assembleAnalysisContext db input = none := by
  cases h : getConversationData db input.conversation_id <;>
    simp [assembleAnalysisContext, h, getMatchData_eq_none]

/-- On a healthy session, a stored `post_analysis_completed = true` flag
makes `_check_already_analyzed` answer `True`. -/
theorem checkAlreadyAnalyzed_of_flag (db : DB) (cid : UUID)
    (hok : db.failing = none)
    (hflag : hasCompletionFlag db.store cid = true) :
    checkAlreadyAnalyzed db cid = true := by
  unfold hasCompletionFlag at hflag
  cases hc : findConversation db.store cid with
  | none => simp [hc] at hflag
  | some conv =>
    simp only [hc] at hflag
    cases hv : (conv.context.getD []).getVal "post_analysis_completed" with
    | none => simp [hv] at hflag
    | some v =>
      simp only [hv] at hflag
      cases v with
      | jbool b =>
        cases b with
        | true => simp [checkAlreadyAnalyzed, hok, hc, hv]
        | false => simp at hflag
      | jnat n => simp at hflag
      | jstr s => simp at hflag

/-- The tool loop preserves the batch length and counts exactly the
results that satisfy `countsAsDecision`. -/
theorem processToolBlocks_length_count (input : ConversationAnalysisInput) :
    ∀ (blocks : List ToolBlock) (db : DB),
      ((processToolBlocks input db blocks).1).length = blocks.length ∧
      (processToolBlocks input db blocks).2.1 =
        ((processToolBlocks input db blocks).1.filter countsAsDecision).length := by
  intro blocks
  induction blocks with
  | nil => intro db; simp [processToolBlocks]
  | cons b rest ih =>
    intro db
    simp only [processToolBlocks, List.length_cons, List.filter_cons]
    refine ⟨by simp [(ih _).1], ?_⟩
    by_cases hc : countsAsDecision (executeTool db b input).1
    · simp [hc, (ih _).2, Nat.add_comm]
    · simp [hc, (ih _).2]

end Screening

namespace Screening

/-! ### Claim theorems -/

/-- C5: the title-similarity function equals token-set Jaccard similarity
(intersection of words over union of words, case-insensitive,
whitespace-tokenized) with both titles empty giving 1.0 and exactly one
empty giving 0.0; in particular the two same-words titles score 1.0, two
empty titles 1.0, one empty title 0.0, and "a b c" vs "b c d" scores
2/4 = 1/2. -/
theorem claim_C5_title_similarity :
    (∀ t1 t2 : String, calculateTitleSimilarity t1 t2 = jaccardSimilaritySpec t1 t2) ∧
    calculateTitleSimilarity "Urgent scheduling conflict" "urgent Scheduling Conflict" = 1 ∧
    calculateTitleSimilarity "" "" = 1 ∧
    calculateTitleSimilarity "abc" "" = 0 ∧
    calculateTitleSimilarity "a b c" "b c d" = 1/2 := by
  refine ⟨?_, ?_, ?_, ?_, ?_⟩
  · intro t1 t2
    simp only [calculateTitleSimilarity, jaccardSimilaritySpec]
    by_cases h1 : titleWords t1 = ∅ <;> by_cases h2 : titleWords t2 = ∅ <;>
      simp [h1, h2, Finset.union_eq_empty]
  · simp only [calculateTitleSimilarity]
    rw [if_neg (by decide), if_neg (by decide), if_neg (by decide)]
    rw [show (titleWords "Urgent scheduling conflict" ∩ titleWords "urgent Scheduling Conflict").card = 3 from by decide,
        show (titleWords "Urgent scheduling conflict" ∪ titleWords "urgent Scheduling Conflict").card = 3 from by decide]
    norm_num
  · simp only [calculateTitleSimilarity]
    rw [if_pos (by decide)]
  · simp only [calculateTitleSimilarity]
    rw [if_neg (by decide), if_pos (by decide)]
  · simp only [calculateTitleSimilarity]
    rw [if_neg (by decide), if_neg (by decide), if_neg (by decide)]
    rw [show (titleWords "a b c" ∩ titleWords "b c d").card = 2 from by decide,
        show (titleWords "a b c" ∪ titleWords "b c d").card = 4 from by decide]
    norm_num

/-- C3: on a healthy session, a conversation whose context bag stores the
completion flag makes a non-forced run return `analysis_completed = true`,
`decisions_created = 0` and a populated informational `error_message`,
with the engine never invoked; a forced run skips the flag check entirely
and proceeds to context assembly regardless of the flag (no hypothesis on
the flag is needed). -/
theorem claim_C3_idempotency :
    (∀ (db : DB) (input : ConversationAnalysisInput) (engine : Option (List ToolBlock)),
      db.failing = none →
      hasCompletionFlag db.store input.conversation_id = true →
      input.force_reanalysis = false →
      analyzeValidInput db input engine =
        ({ conversation_id := input.conversation_id
           analysis_completed := true
           decisions_created := 0
           error_message := some "Already analyzed (use force_reanalysis=True to override)" },
         { checked_flag := true, assembly_attempted := false, engine_invoked := false },
         db)) ∧
    (∀ (db : DB) (input : ConversationAnalysisInput) (engine : Option (List ToolBlock)),
      input.force_reanalysis = true →
      (analyzeValidInput db input engine).2.1.checked_flag = false ∧
      (analyzeValidInput db input engine).2.1.assembly_attempted = true) := by
  constructor
  · intro db input engine hok hflag hforce
    have hch := checkAlreadyAnalyzed_of_flag db input.conversation_id hok hflag
    simp [analyzeValidInput, hforce, hch]
  · intro db input engine hforce
    refine ⟨?_, ?_⟩ <;> simp [analyzeValidInput, hforce, assembleAnalysisContext_eq_none]

/-- C3 witness: both parts of `claim_C3_idempotency` instantiated on the
concrete flagged conversation 3. -/
theorem claim_C3_idempotency_witness :
    analyzeValidInput dbFlagged inputNF none =
      ({ conversation_id := 3, analysis_completed := true, decisions_created := 0
         error_message := some "Already analyzed (use force_reanalysis=True to override)" },
       { checked_flag := true, assembly_attempted := false, engine_invoked := false },
       dbFlagged) ∧
    ((analyzeValidInput dbFlagged inputF none).2.1.checked_flag = false ∧
     (analyzeValidInput dbFlagged inputF none).2.1.assembly_attempted = true) :=
  ⟨claim_C3_idempotency.1 dbFlagged inputNF none rfl (by decide) rfl,
   claim_C3_idempotency.2 dbFlagged inputF none rfl⟩

/-- C7: the tool loop executes every block of the engine response — one
result per block, a failing handler affecting only its own invocation —
and `decisions_created` is exactly the number of results that are
successful `create_intervention_decision` invocations.  Concretely, with
three blocks whose middle one raises an internal error, the first and
third still execute (success pattern `[true, false, true]`) and the
counter is 0 (no successful creates); and in a batch containing a create
invocation (which the program always fails with the binding-time
TypeError) the siblings still execute, the counter stays 0 and no
decision reaches the store. -/
theorem claim_C7_error_isolation :
    (∀ (input : ConversationAnalysisInput) (db : DB) (blocks : List ToolBlock),
      ((processToolBlocks input db blocks).1).length = blocks.length ∧
      (processToolBlocks input db blocks).2.1 =
        ((processToolBlocks input db blocks).1.filter countsAsDecision).length) ∧
    (processToolBlocks inputNF dbFlagged [dupBlock, updBlock, dupBlock]).1.map ToolResult.success = [true, false, true] ∧
    (processToolBlocks inputNF dbFlagged [dupBlock, updBlock, dupBlock]).2.1 = 0 ∧
    (processToolBlocks inputNF dbFlagged [createBlockFull, updBlock, dupBlock]).1.map ToolResult.success = [false, false, true] ∧
    (processToolBlocks inputNF dbFlagged [createBlockFull, updBlock, dupBlock]).2.1 = 0 ∧
    (processToolBlocks inputNF dbFlagged [createBlockFull, updBlock, dupBlock]).2.2.store.decisions = [] := by
  refine ⟨fun input db blocks => processToolBlocks_length_count input blocks db, ?_, ?_, ?_, ?_, ?_⟩ <;> decide

/-- C1 (refuting evaluation): NO `create_intervention_decision` invocation
can succeed — the prepared arguments carry `conversation_id`, which the
handler does not accept, so every invocation (any argument dict, any
session) fails with the binding-time `TypeError` and leaves the session
untouched; in particular the fully populated, enum-valid invocation that
supplies the whole scope triple fails and persists nothing, so no
validated, fully-scoped Decision write ever happens. -/
theorem claim_C1_decision_scope :
    (∀ (db : DB) (input : ConversationAnalysisInput) (tin : ToolInput) (tid : Option String),
      executeTool db { name := "create_intervention_decision", input := tin, id := tid } input =
        ({ success := false
           error := some "TypeError: _create_intervention_decision got an unexpected keyword argument conversation_id"
           tool_name := some "create_intervention_decision", tool_id := tid }, db)) ∧
    createBlockFull.input.team_id = some 11 ∧
    (executeTool dbFlagged createBlockFull inputNF).1.success = false ∧
    (executeTool dbFlagged createBlockFull inputNF).2.store.decisions = [] := by
  refine ⟨fun db input tin tid => rfl, by decide, by decide, by decide⟩

/-- C6: an invocation with an out-of-enumeration decision type, an
out-of-enumeration priority and a missing title fails as a failed
invocation — `success = false` with a populated error, the session
untouched (no Decision persisted) — and not as a failed run: the sibling
invocations of the batch are still processed.  (Proved for every create
invocation: the failure is the binding-time `TypeError` on the unexpected
`conversation_id` argument, which precedes any enum or required-field
check, so invalid and valid argument dicts alike are rejected.) -/
theorem claim_C6_decision_validation :
    (∀ (db : DB) (input : ConversationAnalysisInput) (tin : ToolInput)
       (tid : Option String) (rest : List ToolBlock),
      (executeTool db { name := "create_intervention_decision", input := tin, id := tid } input).1.success = false ∧
      (executeTool db { name := "create_intervention_decision", input := tin, id := tid } input).1.error.isSome = true ∧
      (executeTool db { name := "create_intervention_decision", input := tin, id := tid } input).2 = db ∧
      (processToolBlocks input db
          ({ name := "create_intervention_decision", input := tin, id := tid } :: rest)).1 =
        (executeTool db { name := "create_intervention_decision", input := tin, id := tid } input).1 ::
          (processToolBlocks input db rest).1) ∧
    decisionTypeValues.contains "totally_bogus_type" = false ∧
    decisionPriorityValues.contains "urgent" = false ∧
    badCreateBlock.input.title = none ∧
    (executeTool dbFlagged badCreateBlock inputNF).1.success = false ∧
    (executeTool dbFlagged badCreateBlock inputNF).1.error.isSome = true ∧
    (executeTool dbFlagged badCreateBlock inputNF).2.store.decisions = [] := by
  refine ⟨?_, by decide, by decide, by decide, by decide, by decide, by decide⟩
  intro db input tin tid rest
  have h1 : executeTool db { name := "create_intervention_decision", input := tin, id := tid } input =
      ({ success := false
         error := some "TypeError: _create_intervention_decision got an unexpected keyword argument conversation_id"
         tool_name := some "create_intervention_decision", tool_id := tid }, db) := rfl
  refine ⟨rfl, rfl, rfl, ?_⟩
  simp [processToolBlocks, h1]

/-- C2 (refuting evaluation): context assembly returns `None` on EVERY
input — the match reference is read as a Python attribute of the JSON
context dict and never resolves — so in particular it fails on the
concrete store where conversation 7 exists with zero messages, its context
bag stores `match_id = 5`, and match 5 is present. -/
theorem claim_C2_assembly :
    (∀ (db : DB) (input : ConversationAnalysisInput), assembleAnalysisContext db input = none) ∧
    (getConversationData dbZero 7).isSome = true ∧
    storeZero.messages.filter (fun m => m.conversation_id = 7) = [] ∧
    (storeZero.job_posting_matches.find? (fun m => m.id = 5)).isSome = true ∧
    convZero.context = some [("match_id", JVal.jnat 5)] ∧
    assembleAnalysisContext dbZero inputZero = none := by
  refine ⟨assembleAnalysisContext_eq_none, ?_, ?_, ?_, ?_, ?_⟩
  · decide
  · decide
  · decide
  · decide
  · exact assembleAnalysisContext_eq_none dbZero inputZero

/-- C4 (refuting evaluation): `update_conversation_status` never succeeds
(every branch raises — the completion flag is written towards the
nonexistent `metadata` attribute, not the `context` column the idempotency
check reads), so on the concrete store the invocation reports failure, the
session state is unchanged, the idempotency check still answers `false`,
and a subsequent non-forced run is NOT skipped as already analyzed (it
proceeds to assembly and fails there). -/
theorem claim_C4_status_round_trip :
    (∀ (db : DB) (cid : UUID) (st : Option String) (ac : Bool) (dc : Nat),
      ∃ e, updateConversationStatus db cid st ac dc = Except.error e) ∧
    (executeTool dbZero updBlock inputZero).1.success = false ∧
    (executeTool dbZero updBlock inputZero).2 = dbZero ∧
    checkAlreadyAnalyzed dbZero 7 = false ∧
    (analyzeValidInput dbZero inputZero none).1.analysis_completed = false ∧
    (analyzeValidInput dbZero inputZero none).1.error_message = some "Failed to assemble conversation context" := by
  refine ⟨?_, ?_, ?_, ?_, ?_, ?_⟩
  · intro db cid st ac dc
    cases hf : db.failing with
    | some m => exact ⟨m, by simp [updateConversationStatus, hf]⟩
    | none =>
      cases hc : findConversation db.store cid with
      | none =>
        exact ⟨"Conversation not found with ID: " ++ toString cid,
          by simp [updateConversationStatus, hf, hc]⟩
      | some conv =>
        exact ⟨"AttributeError: MetaData object has no attribute update",
          by simp [updateConversationStatus, hf, hc]⟩
  · decide
  · decide
  · decide
  · decide
  · decide

/-- C8 (refuting evaluation): with a malformed `conversation_id` the
pydantic input construction raises inside the `try` and the `except` block
itself raises `UnboundLocalError` — `analyze_conversation` raises past its
boundary; with validated inputs every run returns a result. -/
theorem claim_C8_exception_boundary :
    analyzeConversation dbFlagged (RawArg.malformed "not-a-uuid") (RawArg.uuid 5) false none =
      Except.error "UnboundLocalError: input_data referenced before assignment" ∧
    (∀ (db : DB) (u1 u2 : UUID) (force : Bool) (engine : Option (List ToolBlock)),
      ∃ out, analyzeConversation db (RawArg.uuid u1) (RawArg.uuid u2) force engine = Except.ok out) :=
  ⟨rfl, fun _ _ _ _ _ => ⟨_, rfl⟩⟩

/-- C9 counterexample: for the concrete unknown tool name the early-return
failure dictionary of `execute_tool` carries only `success` and `error` —
its `tool_name` and correlation-id keys are ABSENT, refuting the claimed
result shape `{success, error, tool_name, correlation_id}`. -/
theorem claim_C9_counterexample :
    (executeTool dbFlagged unknownBlock inputNF).1.success = false ∧
    (executeTool dbFlagged unknownBlock inputNF).1.error = some "Tool function transfer_funds not found" ∧
    (executeTool dbFlagged unknownBlock inputNF).1.tool_name = none ∧
    (executeTool dbFlagged unknownBlock inputNF).1.tool_id = none := by
  decide

/-- C9 (amended): an invocation whose name is outside the catalog fails
only that invocation, with a `{success: false, error}` result (no
tool_name / correlation-id keys), leaves the session untouched, and the
batch continues: the remaining invocations are processed exactly as they
would be on their own and the unknown invocation contributes nothing to
`decisions_created`. -/
theorem claim_C9_unknown_tool (db : DB) (block : ToolBlock)
    (input : ConversationAnalysisInput) (rest : List ToolBlock)
    (h : toolCatalog.contains block.name = false) :
    executeTool db block input =
      ({ success := false
         error := some ("Tool function " ++ block.name ++ " not found") }, db) ∧
    (processToolBlocks input db (block :: rest)).1 =
      (executeTool db block input).1 :: (processToolBlocks input db rest).1 ∧
    (processToolBlocks input db (block :: rest)).2.1 =
      (processToolBlocks input db rest).2.1 := by
  have h1 : executeTool db block input =
      ({ success := false
         error := some ("Tool function " ++ block.name ++ " not found") }, db) := by
    have hmem : block.name ∉ toolCatalog := by simpa using h
    simp [executeTool, hmem]
  refine ⟨h1, ?_, ?_⟩
  · simp [processToolBlocks, h1]
  · simp [processToolBlocks, h1, countsAsDecision]

/-- C9 witness: `claim_C9_unknown_tool` instantiated on the concrete
unknown invocation followed by a well-formed sibling invocation. -/
theorem claim_C9_unknown_tool_witness :
    executeTool dbFlagged unknownBlock inputNF =
      ({ success := false
         error := some ("Tool function " ++ unknownBlock.name ++ " not found") }, dbFlagged) ∧
    (processToolBlocks inputNF dbFlagged (unknownBlock :: [dupBlock])).1 =
      (executeTool dbFlagged unknownBlock inputNF).1 :: (processToolBlocks inputNF dbFlagged [dupBlock]).1 ∧
    (processToolBlocks inputNF dbFlagged (unknownBlock :: [dupBlock])).2.1 =
      (processToolBlocks inputNF dbFlagged [dupBlock]).2.1 :=
  claim_C9_unknown_tool dbFlagged unknownBlock inputNF [dupBlock] (by decide)

/-- C10: when the store query of `check_duplicate_decision` raises, the
handler swallows the failure and returns the no-duplicates dictionary with
an extra `error` key, so `execute_tool` records the invocation as
`success = true` and the session is untouched — indistinguishable from a
successful no-duplicates answer apart from the `error` field. -/
theorem claim_C10_duplicate_error_swallowed (db : DB) (block : ToolBlock)
    (input : ConversationAnalysisInput) (msg : String) (dtitle : String)
    (hfail : db.failing = some msg)
    (hname : block.name = "check_duplicate_decision")
    (htitle : block.input.decision_title = some dtitle) :
    executeTool db block input =
      ({ success := true
         result := some (ToolOutput.dup
           { is_duplicate := false
             duplicate_count := 0
             duplicate_decisions := []
             error := some msg })
         tool_name := some "check_duplicate_decision"
         tool_id := block.id }, db) := by
  simp [executeTool, hname, checkDuplicateDecision, htitle, hfail, toolCatalog]

/-- C10 witness: `claim_C10_duplicate_error_swallowed` instantiated on the
concrete failing session and duplicate-check invocation. -/
theorem claim_C10_duplicate_error_swallowed_witness :
    executeTool dbFailing dupBlock inputNF =
      ({ success := true
         result := some (ToolOutput.dup
           { is_duplicate := false
             duplicate_count := 0
             duplicate_decisions := []
             error := some "disk error" })
         tool_name := some "check_duplicate_decision"
         tool_id := some "toolu_4" }, dbFailing) :=
  claim_C10_duplicate_error_swallowed dbFailing dupBlock inputNF "disk error" "Urgent" rfl rfl rfl

end Screening
